import Mathlib

/-!
Shallow embedding of the rank-item CRUD backend:
the mongoose schema in models/rankItem.js, the five route handlers in
routes/rankItemRoutes.js, and the terminal error middleware in
middlewares/errorHandler.js.  The mongo/mongoose behaviours the handlers
rely on (ObjectId casting, required-field validation, unique indexes on
siteName and rank, timestamps) are embedded explicitly.
-/

/-- The RankItem document fields, from models/rankItem.js.  `createAccountUrl`
and `downloadAppUrl` are declared `required: false` in the schema, all other
fields `required: true`. -/
structure RankItem where
  siteName : String
  logo : String
  advantages : List String
  welcomeBonus : String
  payments : List String
  promoCode : String
  rank : Int
  createAccountUrl : Option String
  downloadAppUrl : Option String
deriving DecidableEq

/-- Mongoose required-field validation of a full document: a required string
path passes `checkRequired` iff it is a non-empty string, and a required array
path passes iff the array has positive length.  A present number always passes.
This is the validation `save()` runs against the schema of models/rankItem.js. -/
def RankItem.valid (r : RankItem) : Bool :=
  !r.siteName.isEmpty && !r.logo.isEmpty && !r.advantages.isEmpty &&
  !r.welcomeBonus.isEmpty && !r.payments.isEmpty && !r.promoCode.isEmpty

/-- A JSON request body for create/update: any subset of the schema paths may
be supplied (`new RankItem(req.body)` and `findByIdAndUpdate(id, req.body, ...)`
both treat the body as a partial assignment of schema paths). -/
structure ItemBody where
  siteName : Option String := none
  logo : Option String := none
  advantages : Option (List String) := none
  welcomeBonus : Option String := none
  payments : Option (List String) := none
  promoCode : Option String := none
  rank : Option Int := none
  createAccountUrl : Option String := none
  downloadAppUrl : Option String := none
deriving DecidableEq

/-- Casting a body into a full document, as `new RankItem(req.body)` does:
every required path must be present for a full document to exist (a missing
array path defaults to `[]`, which fails the required check exactly as an
absent value does, so it is folded into the same failure). -/
def ItemBody.build (b : ItemBody) : Option RankItem :=
  match b.siteName, b.logo, b.advantages, b.welcomeBonus,
        b.payments, b.promoCode, b.rank with
  | some sn, some lg, some adv, some wb, some pay, some pc, some rk =>
      some { siteName := sn, logo := lg, advantages := adv, welcomeBonus := wb,
             payments := pay, promoCode := pc, rank := rk,
             createAccountUrl := b.createAccountUrl,
             downloadAppUrl := b.downloadAppUrl }
  | _, _, _, _, _, _, _ => none

/-- The express route guard `if (!req.body.siteName)`: a missing `siteName`
and an empty-string `siteName` are both falsy in JavaScript. -/
def ItemBody.siteNameFalsy (b : ItemBody) : Bool :=
  match b.siteName with
  | none => true
  | some s => s.isEmpty

/-- Mongoose update validation of one supplied string path. -/
def optStrOk : Option String → Bool
  | none => true
  | some v => !v.isEmpty

/-- Mongoose update validation of one supplied array path. -/
def optListOk : Option (List String) → Bool
  | none => true
  | some v => !v.isEmpty

/-- Update validators (`runValidators: true` in the PUT handler) run the
required-field checks on exactly the paths supplied in the update body. -/
def ItemBody.validatePaths (b : ItemBody) : Bool :=
  optStrOk b.siteName && optStrOk b.logo && optListOk b.advantages &&
  optStrOk b.welcomeBonus && optListOk b.payments && optStrOk b.promoCode

/-- A stored document: the schema fields plus the system-managed `_id` and
the `timestamps: true` pair `createdAt`/`updatedAt`. -/
structure StoredItem where
  id : String
  data : RankItem
  createdAt : Nat
  updatedAt : Nat
deriving DecidableEq

/-- The rankitems collection. -/
structure Store where
  items : List StoredItem
deriving DecidableEq

/-- Mongoose ObjectId casting accepts a 24-character hex string (or a raw
12-character string); anything else raises a CastError. -/
def isValidObjectId (s : String) : Bool :=
  (s.length == 24 && s.toList.all (fun c => c.isDigit ||
      ('a' ≤ c && c ≤ 'f') || ('A' ≤ c && c ≤ 'F'))) ||
  s.length == 12

/-- The errors the store layer raises: ObjectId cast failures, schema
validation failures, and unique-index violations (the `siteName` and `rank`
paths carry `unique: true`). -/
inductive DbError where
  | castError (id : String)
  | validationError (path : String)
  | duplicateKey (path : String)
deriving DecidableEq

/-- The `message` property of the raised error, as the mongo/mongoose client
surfaces it. -/
def DbError.message : DbError → String
  | .castError id => "Cast to ObjectId failed for value " ++ id
  | .validationError p => "RankItem validation failed: " ++ p ++ " is required"
  | .duplicateKey p => "E11000 duplicate key error collection rankitems index " ++ p

/-- A response body: a JSON array of documents, a single document, or a
message object. -/
inductive RespBody where
  | items (l : List StoredItem)
  | item (it : StoredItem)
  | msg (m : String)
deriving DecidableEq

/-- The terminal middleware of middlewares/errorHandler.js: any error reaching
it is logged server-side and answered with status 500 and a fixed generic
message. -/
def errorHandler (_e : DbError) : Nat × RespBody :=
  (500, RespBody.msg "Something went wrong!")

/-- Ordering used by `RankItem.find({}).sort({ rank: 1 })`. -/
def rankLE (a b : StoredItem) : Prop := a.data.rank ≤ b.data.rank

instance : DecidableRel rankLE := fun a b => Int.decLe a.data.rank b.data.rank

instance : IsTotal StoredItem rankLE := ⟨fun a b => Int.le_total a.data.rank b.data.rank⟩

instance : IsTrans StoredItem rankLE := ⟨fun _ _ _ h1 h2 => le_trans h1 h2⟩

/-- GET / — `RankItem.find({}).sort({ rank: 1 })`, answered with the array and
status 200. -/
def getAllRankItems (s : Store) : Nat × RespBody :=
  (200, RespBody.items (List.insertionSort rankLE s.items))

/-- `newRankItem.save()`: cast the body to a document, run schema validation,
then let the storage layer enforce the unique indexes on `siteName` and
`rank`; on success the document is stored with a fresh `_id` and both
timestamps set to now. -/
def Store.save (s : Store) (b : ItemBody) (newId : String) (now : Nat) :
    Except DbError (StoredItem × Store) :=
  match b.build with
  | none => .error (.validationError "path")
  | some r =>
    if !r.valid then .error (.validationError "path")
    else if s.items.any (fun it => it.data.siteName == r.siteName) then
      .error (.duplicateKey "siteName")
    else if s.items.any (fun it => it.data.rank == r.rank) then
      .error (.duplicateKey "rank")
    else
      let it : StoredItem := ⟨newId, r, now, now⟩
      .ok (it, ⟨s.items ++ [it]⟩)

/-- POST / — rejects a falsy `siteName` with 400 before touching the store;
otherwise saves and answers 201 with the stored document.  The catch block of
this route answers 500 with `error.message` itself instead of calling
`next(error)`. -/
def createRankItem (s : Store) (b : ItemBody) (newId : String) (now : Nat) :
    Nat × RespBody × Store :=
  if b.siteNameFalsy then
    (400, RespBody.msg "Le nom du site est requis", s)
  else
    match s.save b newId now with
    | .ok (it, s2) => (201, RespBody.item it, s2)
    | .error e => (500, RespBody.msg e.message, s)

/-- GET /:id — `RankItem.findById`: a malformed id raises a CastError which the
catch block forwards with `next(error)` to the error middleware; a missing
document answers 404; otherwise the document is returned. -/
def getRankItemById (s : Store) (id : String) : Nat × RespBody :=
  if !isValidObjectId id then
    errorHandler (.castError id)
  else
    match s.items.find? (fun it => it.id == id) with
    | none => (404, RespBody.msg "Rank item not found")
    | some it => (200, RespBody.item it)

/-- `findByIdAndUpdate` merges the supplied paths onto the stored document
(`$set` semantics: a supplied path is overwritten, an omitted path keeps its
stored value) and refreshes `updatedAt`. -/
def StoredItem.applyBody (it : StoredItem) (b : ItemBody) (now : Nat) : StoredItem :=
  { it with
    updatedAt := now,
    data := { siteName := b.siteName.getD it.data.siteName,
              logo := b.logo.getD it.data.logo,
              advantages := b.advantages.getD it.data.advantages,
              welcomeBonus := b.welcomeBonus.getD it.data.welcomeBonus,
              payments := b.payments.getD it.data.payments,
              promoCode := b.promoCode.getD it.data.promoCode,
              rank := b.rank.getD it.data.rank,
              createAccountUrl :=
                (b.createAccountUrl.map some).getD it.data.createAccountUrl,
              downloadAppUrl :=
                (b.downloadAppUrl.map some).getD it.data.downloadAppUrl } }

/-- PUT /:id — `RankItem.findByIdAndUpdate(id, req.body, { new: true,
runValidators: true })`: the id is cast (CastError on a malformed id) and the
update validators run on the supplied paths before the query executes; a
missing document answers 404; otherwise the merge is applied, the unique
indexes are enforced against the other documents, and the updated document is
returned.  Every raised error goes through `next(error)` to the error
middleware. -/
def updateRankItemById (s : Store) (id : String) (b : ItemBody) (now : Nat) :
    Nat × RespBody × Store :=
  if !isValidObjectId id then
    ((errorHandler (.castError id)).1, (errorHandler (.castError id)).2, s)
  else if !b.validatePaths then
    ((errorHandler (.validationError "path")).1,
     (errorHandler (.validationError "path")).2, s)
  else
    match s.items.find? (fun it => it.id == id) with
    | none => (404, RespBody.msg "Rank item not found", s)
    | some it =>
      let it2 := it.applyBody b now
      if s.items.any (fun o =>
          o.id != id && (o.data.siteName == it2.data.siteName ||
                         o.data.rank == it2.data.rank)) then
        ((errorHandler (.duplicateKey "siteName")).1,
         (errorHandler (.duplicateKey "siteName")).2, s)
      else
        (200, RespBody.item it2,
         ⟨s.items.map (fun o => if o.id == id then it2 else o)⟩)

/-- DELETE /:id — `RankItem.findByIdAndDelete`: CastError on a malformed id
(forwarded to the error middleware), 404 when no document has the id,
otherwise the document is removed and a confirmation message returned. -/
def deleteRankItemById (s : Store) (id : String) : Nat × RespBody × Store :=
  if !isValidObjectId id then
    ((errorHandler (.castError id)).1, (errorHandler (.castError id)).2, s)
  else
    match s.items.find? (fun it => it.id == id) with
    | none => (404, RespBody.msg "Rank item not found", s)
    | some _ =>
      (200, RespBody.msg "Rank item deleted successfully",
       ⟨s.items.filter (fun it => it.id != id)⟩)

/-- Well-formedness of the collection: every stored document passed schema
validation when written. -/
def Store.allValid (s : Store) : Prop :=
  ∀ it ∈ s.items, it.data.valid = true

/-- Concrete document fields, from the end-to-end scenario of the spec. -/
def sampleRank : RankItem :=
  ⟨"Acme Bet", "logo.png", ["Fast payouts"], "100 percent", ["Visa"],
   "ACME100", 1, none, none⟩

/-- Concrete stored document with a well-formed 24-hex-character id. -/
def sampleItem : StoredItem :=
  ⟨"aaaaaaaaaaaaaaaaaaaaaaaa", sampleRank, 0, 0⟩

/-- Concrete full create body matching `sampleRank`. -/
def sampleBody : ItemBody :=
  { siteName := some "Acme Bet", logo := some "logo.png",
    advantages := some ["Fast payouts"], welcomeBonus := some "100 percent",
    payments := some ["Visa"], promoCode := some "ACME100", rank := some 1 }

/-- Concrete create body reusing the stored `siteName` with a fresh rank. -/
def dupBody : ItemBody := { sampleBody with rank := some 2 }

/-- Concrete partial update body touching only `rank`. -/
def rankOnlyBody : ItemBody := { rank := some 2 }

/-- Concrete update body supplying an empty `advantages` array. -/
def emptyAdvBody : ItemBody := { advantages := some ([] : List String) }

/-- Inversion of `new RankItem(req.body)`: a successfully built document takes
each required field from the body. -/
lemma ItemBody.build_fields {b : ItemBody} {r : RankItem} (h : b.build = some r) :
    b.siteName = some r.siteName ∧ b.advantages = some r.advantages ∧
    b.payments = some r.payments := by
  unfold ItemBody.build at h
  split at h
  · cases h
    exact ⟨by assumption, by assumption, by assumption⟩
  · cases h

/-- C1: the claim states that read, update and delete answer 404 for ids that
are malformed; on the code a malformed id raises a CastError which the error
middleware converts to a 500: the read of id "xyz" on the empty collection
answers 500, not 404. -/
theorem C1_counterexample :
    (getRankItemById ⟨[]⟩ "xyz").1 = 500 ∧ (getRankItemById ⟨[]⟩ "xyz").1 ≠ 404 := by
  decide

/-- C1 (amended): for every well-formed id matching no stored record, read,
update (with a body whose supplied paths validate) and delete each answer 404;
for every malformed id all three answer 500 through the error middleware. -/
theorem C1_amended_notFound_404_malformed_500 (s : Store) (id : String)
    (b : ItemBody) (now : Nat) (hb : b.validatePaths = true) :
    (isValidObjectId id = true → s.items.find? (fun it => it.id == id) = none →
      (getRankItemById s id).1 = 404 ∧ (updateRankItemById s id b now).1 = 404 ∧
      (deleteRankItemById s id).1 = 404) ∧
    (isValidObjectId id = false →
      (getRankItemById s id).1 = 500 ∧ (updateRankItemById s id b now).1 = 500 ∧
      (deleteRankItemById s id).1 = 500) := by
  constructor
  · intro hv hf
    refine ⟨?_, ?_, ?_⟩ <;>
      simp [getRankItemById, updateRankItemById, deleteRankItemById, hv, hb, hf]
  · intro hv
    refine ⟨?_, ?_, ?_⟩ <;>
      simp [getRankItemById, updateRankItemById, deleteRankItemById, errorHandler, hv]

theorem C1_amended_witness :
    (getRankItemById ⟨[]⟩ "aaaaaaaaaaaaaaaaaaaaaaaa").1 = 404 :=
  ((C1_amended_notFound_404_malformed_500 ⟨[]⟩ "aaaaaaaaaaaaaaaaaaaaaaaa" {} 0
      (by decide)).1 (by decide) (by decide)).1

/-- C3: the list operation answers 200 with the stored records sorted by the
`rank` field; the result is non-decreasing in `rank` and is a permutation of
the collection, whatever order the records were inserted in. -/
theorem C3_list_sorted_by_rank (s : Store) :
    getAllRankItems s = (200, RespBody.items (List.insertionSort rankLE s.items)) ∧
    List.Sorted rankLE (List.insertionSort rankLE s.items) ∧
    List.Perm (List.insertionSort rankLE s.items) s.items :=
  ⟨rfl, List.sorted_insertionSort rankLE s.items, List.perm_insertionSort rankLE s.items⟩

/-- C7: a create whose body has no `siteName` answers 400 and leaves the
store untouched, so the list count is unchanged. -/
theorem C7_create_without_siteName_400 (s : Store) (b : ItemBody)
    (newId : String) (now : Nat) (h : b.siteName = none) :
    createRankItem s b newId now = (400, RespBody.msg "Le nom du site est requis", s) ∧
    (List.insertionSort rankLE ((createRankItem s b newId now).2.2).items).length
      = (List.insertionSort rankLE s.items).length := by
  have h400 : createRankItem s b newId now
      = (400, RespBody.msg "Le nom du site est requis", s) := by
    simp [createRankItem, ItemBody.siteNameFalsy, h]
  exact ⟨h400, by rw [h400]⟩

theorem C7_witness :
    createRankItem ⟨[sampleItem]⟩ rankOnlyBody "bbbbbbbbbbbbbbbbbbbbbbbb" 5
      = (400, RespBody.msg "Le nom du site est requis", ⟨[sampleItem]⟩) :=
  (C7_create_without_siteName_400 ⟨[sampleItem]⟩ rankOnlyBody
    "bbbbbbbbbbbbbbbbbbbbbbbb" 5 (by decide)).1

/-- C9: deleting a stored record by its id answers 200 with the confirmation
message; a subsequent read of the same id answers 404, and no record with
that id remains in the store (hard delete, no tombstone). -/
theorem C9_delete_then_read_404 (s : Store) (id : String) (it : StoredItem)
    (hid : isValidObjectId id = true)
    (hfind : s.items.find? (fun o => o.id == id) = some it) :
    deleteRankItemById s id =
      (200, RespBody.msg "Rank item deleted successfully",
       ⟨s.items.filter (fun o => o.id != id)⟩) ∧
    getRankItemById ⟨s.items.filter (fun o => o.id != id)⟩ id =
      (404, RespBody.msg "Rank item not found") ∧
    ∀ o ∈ s.items.filter (fun o => o.id != id), o.id ≠ id := by
  refine ⟨by simp [deleteRankItemById, hid, hfind], ?_, ?_⟩
  · have hnone : (s.items.filter (fun o => o.id != id)).find?
        (fun o => o.id == id) = none := by
      rw [List.find?_eq_none]
      intro x hx
      simp only [List.mem_filter, bne_iff_ne] at hx
      simp [hx.2]
    simp [getRankItemById, hid, hnone]
  · intro o ho
    simp only [List.mem_filter, bne_iff_ne] at ho
    exact ho.2

theorem C9_witness :
    getRankItemById ⟨[sampleItem].filter (fun o => o.id != "aaaaaaaaaaaaaaaaaaaaaaaa")⟩
        "aaaaaaaaaaaaaaaaaaaaaaaa" = (404, RespBody.msg "Rank item not found") :=
  (C9_delete_then_read_404 ⟨[sampleItem]⟩ "aaaaaaaaaaaaaaaaaaaaaaaa" sampleItem
    (by decide) (by decide)).2.1

/-- C2: a valid create body whose `siteName` and `rank` are both free answers
201 with the stored document — the input payload plus the generated id and
timestamps — and an immediate read of the returned id answers 200 with that
same document. -/
theorem C2_create_then_read (s : Store) (b : ItemBody) (r : RankItem)
    (newId : String) (now : Nat)
    (hb : b.build = some r) (hv : r.valid = true)
    (hsn : s.items.any (fun it => it.data.siteName == r.siteName) = false)
    (hrk : s.items.any (fun it => it.data.rank == r.rank) = false)
    (hid : isValidObjectId newId = true)
    (hfresh : s.items.all (fun it => it.id != newId) = true) :
    createRankItem s b newId now
      = (201, RespBody.item ⟨newId, r, now, now⟩,
         ⟨s.items ++ [⟨newId, r, now, now⟩]⟩) ∧
    getRankItemById ⟨s.items ++ [⟨newId, r, now, now⟩]⟩ newId
      = (200, RespBody.item ⟨newId, r, now, now⟩) := by
  have hsn' : b.siteName = some r.siteName := (ItemBody.build_fields hb).1
  have hne : r.siteName.isEmpty = false := by
    simp only [RankItem.valid, Bool.and_eq_true, Bool.not_eq_true'] at hv
    exact hv.1.1.1.1.1
  have hfalsy : b.siteNameFalsy = false := by
    simp [ItemBody.siteNameFalsy, hsn', hne]
  constructor
  · simp [createRankItem, hfalsy, Store.save, hb, hv, hsn, hrk]
  · have h1 : s.items.find? (fun o => o.id == newId) = none := by
      rw [List.find?_eq_none]
      intro x hx
      have := List.all_eq_true.mp hfresh x hx
      simp only [bne_iff_ne] at this
      simp [this]
    have hfind : (s.items ++ [(⟨newId, r, now, now⟩ : StoredItem)]).find?
        (fun o => o.id == newId) = some ⟨newId, r, now, now⟩ := by
      rw [List.find?_append, h1]
      simp
    simp [getRankItemById, hid, hfind]

theorem C2_witness :
    createRankItem ⟨[]⟩ sampleBody "aaaaaaaaaaaaaaaaaaaaaaaa" 0
      = (201, RespBody.item sampleItem, ⟨[sampleItem]⟩) ∧
    getRankItemById ⟨[sampleItem]⟩ "aaaaaaaaaaaaaaaaaaaaaaaa"
      = (200, RespBody.item sampleItem) :=
  C2_create_then_read ⟨[]⟩ sampleBody sampleRank "aaaaaaaaaaaaaaaaaaaaaaaa" 0
    (by decide) (by decide) (by decide) (by decide) (by decide) (by decide)

/-- C4: a successful update answers 200 with the merge of the body onto the
stored document: every supplied field takes the supplied value, every omitted
field keeps its stored value, and the id and creation timestamp are
untouched. -/
theorem C4_update_partial_frame (s : Store) (id : String) (b : ItemBody)
    (now : Nat) (it : StoredItem)
    (hid : isValidObjectId id = true)
    (hval : b.validatePaths = true)
    (hfind : s.items.find? (fun o => o.id == id) = some it)
    (hdup : s.items.any (fun o => o.id != id &&
        (o.data.siteName == (it.applyBody b now).data.siteName ||
         o.data.rank == (it.applyBody b now).data.rank)) = false) :
    updateRankItemById s id b now = (200, RespBody.item (it.applyBody b now),
      ⟨s.items.map (fun o => if o.id == id then it.applyBody b now else o)⟩) ∧
    (∀ v, b.siteName = some v → (it.applyBody b now).data.siteName = v) ∧
    (b.siteName = none → (it.applyBody b now).data.siteName = it.data.siteName) ∧
    (∀ v, b.logo = some v → (it.applyBody b now).data.logo = v) ∧
    (b.logo = none → (it.applyBody b now).data.logo = it.data.logo) ∧
    (∀ v, b.advantages = some v → (it.applyBody b now).data.advantages = v) ∧
    (b.advantages = none → (it.applyBody b now).data.advantages = it.data.advantages) ∧
    (∀ v, b.welcomeBonus = some v → (it.applyBody b now).data.welcomeBonus = v) ∧
    (b.welcomeBonus = none → (it.applyBody b now).data.welcomeBonus = it.data.welcomeBonus) ∧
    (∀ v, b.payments = some v → (it.applyBody b now).data.payments = v) ∧
    (b.payments = none → (it.applyBody b now).data.payments = it.data.payments) ∧
    (∀ v, b.promoCode = some v → (it.applyBody b now).data.promoCode = v) ∧
    (b.promoCode = none → (it.applyBody b now).data.promoCode = it.data.promoCode) ∧
    (∀ v, b.rank = some v → (it.applyBody b now).data.rank = v) ∧
    (b.rank = none → (it.applyBody b now).data.rank = it.data.rank) ∧
    (∀ v, b.createAccountUrl = some v → (it.applyBody b now).data.createAccountUrl = some v) ∧
    (b.createAccountUrl = none →
      (it.applyBody b now).data.createAccountUrl = it.data.createAccountUrl) ∧
    (∀ v, b.downloadAppUrl = some v → (it.applyBody b now).data.downloadAppUrl = some v) ∧
    (b.downloadAppUrl = none →
      (it.applyBody b now).data.downloadAppUrl = it.data.downloadAppUrl) ∧
    (it.applyBody b now).id = it.id ∧
    (it.applyBody b now).createdAt = it.createdAt := by
  refine ⟨by simp [updateRankItemById, hid, hval, hfind, hdup], ?_, ?_, ?_, ?_, ?_,
    ?_, ?_, ?_, ?_, ?_, ?_, ?_, ?_, ?_, ?_, ?_, ?_, ?_, ?_, ?_⟩ <;>
    first
      | (intro v hv; simp [StoredItem.applyBody, hv])
      | (intro hv; simp [StoredItem.applyBody, hv])
      | simp [StoredItem.applyBody]

theorem C4_witness :
    updateRankItemById ⟨[sampleItem]⟩ "aaaaaaaaaaaaaaaaaaaaaaaa" rankOnlyBody 5
      = (200, RespBody.item (sampleItem.applyBody rankOnlyBody 5),
         ⟨[sampleItem].map (fun o =>
            if o.id == "aaaaaaaaaaaaaaaaaaaaaaaa"
            then sampleItem.applyBody rankOnlyBody 5 else o)⟩) :=
  (C4_update_partial_frame ⟨[sampleItem]⟩ "aaaaaaaaaaaaaaaaaaaaaaaa" rankOnlyBody 5
    sampleItem (by decide) (by decide) (by decide) (by decide)).1

/-- On a stored document that passed schema validation, the update validators
accept the supplied paths exactly when the merged document passes full schema
validation. -/
lemma applyBody_valid_iff (it : StoredItem) (b : ItemBody) (now : Nat)
    (h : it.data.valid = true) :
    (it.applyBody b now).data.valid = b.validatePaths := by
  obtain ⟨sn, lg, adv, wb, pay, pc, rk, cau, dau⟩ := b
  simp only [RankItem.valid, Bool.and_eq_true] at h
  obtain ⟨⟨⟨⟨⟨h1, h2⟩, h3⟩, h4⟩, h5⟩, h6⟩ := h
  cases sn <;> cases lg <;> cases adv <;> cases wb <;> cases pay <;> cases pc <;>
    simp [StoredItem.applyBody, RankItem.valid, ItemBody.validatePaths,
          optStrOk, optListOk, h1, h2, h3, h4, h5, h6]

/-- C5: on a well-formed store, an update whose merge onto the stored document
violates the schema is rejected — the request fails through the error
middleware and the store is unchanged, so the violating merge is never
persisted. -/
theorem C5_update_revalidates_merge (s : Store) (id : String) (b : ItemBody)
    (now : Nat) (it : StoredItem)
    (hwf : Store.allValid s)
    (hid : isValidObjectId id = true)
    (hfind : s.items.find? (fun o => o.id == id) = some it)
    (hbad : (it.applyBody b now).data.valid = false) :
    updateRankItemById s id b now = (500, RespBody.msg "Something went wrong!", s) := by
  have hmem : it ∈ s.items := List.mem_of_find?_eq_some hfind
  have hvalid : it.data.valid = true := hwf it hmem
  have hpaths : b.validatePaths = false := by
    rw [← applyBody_valid_iff it b now hvalid]
    exact hbad
  simp [updateRankItemById, hid, hpaths, errorHandler]

theorem C5_witness :
    updateRankItemById ⟨[sampleItem]⟩ "aaaaaaaaaaaaaaaaaaaaaaaa" emptyAdvBody 5
      = (500, RespBody.msg "Something went wrong!", ⟨[sampleItem]⟩) :=
  C5_update_revalidates_merge ⟨[sampleItem]⟩ "aaaaaaaaaaaaaaaaaaaaaaaa" emptyAdvBody 5
    sampleItem (by unfold Store.allValid; decide) (by decide) (by decide) (by decide)

/-- Inversion of a successful `save()`: the stored document is the built body,
it passed schema validation, it carries the fresh id and the timestamps, and
it was appended to the collection. -/
lemma Store.save_ok_inv {s : Store} {b : ItemBody} {newId : String} {now : Nat}
    {it : StoredItem} {s2 : Store} (h : s.save b newId now = Except.ok (it, s2)) :
    b.build = some it.data ∧ it.data.valid = true ∧ it.id = newId ∧
    it.createdAt = now ∧ it.updatedAt = now ∧ s2 = ⟨s.items ++ [it]⟩ := by
  unfold Store.save at h
  split at h
  · cases h
  · rename_i r hbuild
    by_cases hv : r.valid = true
    · by_cases h1 : s.items.any (fun o => o.data.siteName == r.siteName) = true
      · simp [hv, h1] at h
      · by_cases h2 : s.items.any (fun o => o.data.rank == r.rank) = true
        · simp [hv, h1, h2] at h
        · simp only [hv, Bool.not_true, Bool.false_eq_true, if_false,
            h1, h2, if_neg, Except.ok.injEq, Prod.mk.injEq] at h
          obtain ⟨rfl, rfl⟩ := h
          exact ⟨hbuild, hv, rfl, rfl, rfl, rfl⟩
    · simp [hv] at h

/-- A document passing schema validation has non-empty `advantages` and
`payments` arrays. -/
lemma valid_nonempty_arrays {r : RankItem} (h : r.valid = true) :
    r.advantages ≠ [] ∧ r.payments ≠ [] := by
  simp only [RankItem.valid, Bool.and_eq_true, Bool.not_eq_true'] at h
  refine ⟨?_, ?_⟩
  · have ha := h.1.1.1.2
    intro hnil
    rw [hnil] at ha
    simp at ha
  · have hp := h.1.2
    intro hnil
    rw [hnil] at hp
    simp at hp

/-- C6: the claim states that no error response ever carries internal error
text; on the code the create route's catch block answers 500 with the
underlying `error.message`: creating a record whose `siteName` is already
stored answers 500 with the duplicate-key message of the store, not the
generic message. -/
theorem C6_counterexample :
    createRankItem ⟨[sampleItem]⟩ dupBody "bbbbbbbbbbbbbbbbbbbbbbbb" 5
      = (500, RespBody.msg
          "E11000 duplicate key error collection rankitems index siteName",
         ⟨[sampleItem]⟩) ∧
    "E11000 duplicate key error collection rankitems index siteName"
      ≠ "Something went wrong!" := by
  decide

/-- C6 (amended): every 500 from the read, update and delete routes goes
through the error middleware and carries only the fixed generic message, but
the create route's catch block answers a failed save with status 500 and the
underlying store error's message, leaking internal error text to the
client. -/
theorem C6_amended_generic_except_create (s : Store) (id newId : String)
    (b : ItemBody) (now : Nat) :
    ((getRankItemById s id).1 = 500 →
      (getRankItemById s id).2 = RespBody.msg "Something went wrong!") ∧
    ((updateRankItemById s id b now).1 = 500 →
      (updateRankItemById s id b now).2.1 = RespBody.msg "Something went wrong!") ∧
    ((deleteRankItemById s id).1 = 500 →
      (deleteRankItemById s id).2.1 = RespBody.msg "Something went wrong!") ∧
    (∀ e : DbError, b.siteNameFalsy = false → s.save b newId now = Except.error e →
      createRankItem s b newId now = (500, RespBody.msg e.message, s)) := by
  refine ⟨?_, ?_, ?_, ?_⟩
  · by_cases hidv : isValidObjectId id = true
    · cases hf : s.items.find? (fun o => o.id == id) <;>
        simp [getRankItemById, hidv, hf]
    · simp [getRankItemById, hidv, errorHandler]
  · by_cases hidv : isValidObjectId id = true
    · by_cases hp : b.validatePaths = true
      · cases hf : s.items.find? (fun o => o.id == id) with
        | none => simp [updateRankItemById, hidv, hp, hf]
        | some it =>
          by_cases hd : s.items.any (fun o => o.id != id &&
              (o.data.siteName == (it.applyBody b now).data.siteName ||
               o.data.rank == (it.applyBody b now).data.rank)) = true <;>
            simp [updateRankItemById, hidv, hp, hf, hd, errorHandler]
      · simp [updateRankItemById, hidv, hp, errorHandler]
    · simp [updateRankItemById, hidv, errorHandler]
  · by_cases hidv : isValidObjectId id = true
    · cases hf : s.items.find? (fun o => o.id == id) <;>
        simp [deleteRankItemById, hidv, hf]
    · simp [deleteRankItemById, hidv, errorHandler]
  · intro e hfalsy hsave
    simp [createRankItem, hfalsy, hsave]

theorem C6_amended_witness :
    (getRankItemById ⟨[]⟩ "xy").2 = RespBody.msg "Something went wrong!" :=
  (C6_amended_generic_except_create ⟨[]⟩ "xy" "x" {} 0).1 (by decide)

/-- C8: on a well-formed store, every document accepted by a write has
non-empty `advantages` and `payments`; a body supplying an empty `advantages`
or `payments` array is rejected by validation on both create and update and
nothing is stored. -/
theorem C8_arrays_nonempty_on_write (s : Store) (b : ItemBody)
    (newId id : String) (now : Nat) (hwf : Store.allValid s) :
    (∀ it s2, createRankItem s b newId now = (201, RespBody.item it, s2) →
       it.data.advantages ≠ [] ∧ it.data.payments ≠ []) ∧
    (∀ it2 s2, updateRankItemById s id b now = (200, RespBody.item it2, s2) →
       it2.data.advantages ≠ [] ∧ it2.data.payments ≠ []) ∧
    ((b.advantages = some [] ∨ b.payments = some []) →
       (createRankItem s b newId now).1 ≠ 201 ∧
       (createRankItem s b newId now).2.2 = s ∧
       (updateRankItemById s id b now).1 ≠ 200 ∧
       (updateRankItemById s id b now).2.2 = s) := by
  refine ⟨?_, ?_, ?_⟩
  · intro it s2 h
    by_cases hfalsy : b.siteNameFalsy = true
    · simp [createRankItem, hfalsy] at h
    · cases hsave : s.save b newId now with
      | ok p =>
        obtain ⟨it', s2'⟩ := p
        have hinv := Store.save_ok_inv hsave
        simp [createRankItem, hfalsy, hsave] at h
        obtain ⟨rfl, rfl⟩ := h
        exact valid_nonempty_arrays hinv.2.1
      | error e => simp [createRankItem, hfalsy, hsave] at h
  · intro it2 s2 h
    by_cases hidv : isValidObjectId id = true
    · by_cases hp : b.validatePaths = true
      · cases hf : s.items.find? (fun o => o.id == id) with
        | none => simp [updateRankItemById, hidv, hp, hf] at h
        | some it =>
          by_cases hd : s.items.any (fun o => o.id != id &&
              (o.data.siteName == (it.applyBody b now).data.siteName ||
               o.data.rank == (it.applyBody b now).data.rank)) = true
          · simp [updateRankItemById, hidv, hp, hf, hd, errorHandler] at h
          · simp [updateRankItemById, hidv, hp, hf, hd] at h
            obtain ⟨rfl, rfl⟩ := h
            have hvalid : it.data.valid = true :=
              hwf it (List.mem_of_find?_eq_some hf)
            have hm : (it.applyBody b now).data.valid = true := by
              rw [applyBody_valid_iff it b now hvalid]
              exact hp
            exact valid_nonempty_arrays hm
      · simp [updateRankItemById, hidv, hp, errorHandler] at h
    · simp [updateRankItemById, hidv, errorHandler] at h
  · intro hor
    have hpaths : b.validatePaths = false := by
      rcases hor with h' | h' <;>
        simp [ItemBody.validatePaths, optListOk, h']
    have hupd : (updateRankItemById s id b now).1 ≠ 200 ∧
        (updateRankItemById s id b now).2.2 = s := by
      by_cases hidv : isValidObjectId id = true <;>
        simp [updateRankItemById, hidv, hpaths, errorHandler]
    have hcr : (createRankItem s b newId now).1 ≠ 201 ∧
        (createRankItem s b newId now).2.2 = s := by
      by_cases hfalsy : b.siteNameFalsy = true
      · simp [createRankItem, hfalsy]
      · cases hsave : s.save b newId now with
        | ok p =>
          obtain ⟨it', s2'⟩ := p
          have hinv := Store.save_ok_inv hsave
          have hbf := ItemBody.build_fields hinv.1
          have harr := valid_nonempty_arrays hinv.2.1
          exfalso
          rcases hor with h' | h'
          · exact harr.1 (Option.some.inj (hbf.2.1.symm.trans h'))
          · exact harr.2 (Option.some.inj (hbf.2.2.symm.trans h'))
        | error e => simp [createRankItem, hfalsy, hsave]
    exact ⟨hcr.1, hcr.2, hupd.1, hupd.2⟩

theorem C8_witness :
    (updateRankItemById ⟨[sampleItem]⟩ "aaaaaaaaaaaaaaaaaaaaaaaa" emptyAdvBody 5).1 ≠ 200 ∧
    (createRankItem ⟨[sampleItem]⟩ emptyAdvBody "bbbbbbbbbbbbbbbbbbbbbbbb" 5).1 ≠ 201 :=
  ⟨((C8_arrays_nonempty_on_write ⟨[sampleItem]⟩ emptyAdvBody "bbbbbbbbbbbbbbbbbbbbbbbb"
      "aaaaaaaaaaaaaaaaaaaaaaaa" 5 (by unfold Store.allValid; decide)).2.2
      (Or.inl (by decide))).2.2.1,
   ((C8_arrays_nonempty_on_write ⟨[sampleItem]⟩ emptyAdvBody "bbbbbbbbbbbbbbbbbbbbbbbb"
      "aaaaaaaaaaaaaaaaaaaaaaaa" 5 (by unfold Store.allValid; decide)).2.2
      (Or.inl (by decide))).1⟩
